import Mathlib

/-!
A shallow embedding of the service-worker policy module `src/sw.js` of the
maidbooking repository, together with theorems settling the claims of the
specification against it.

The embedding models:
- the request classifier `shouldNotCache` (sw.js lines 123-125),
- the `install` event handler (lines 21-37),
- the `activate` event handler (lines 40-58),
- the main `fetch` router listener (lines 61-120), and
- the secondary update-notification `fetch` listener (lines 188-209).

Host capabilities (the cache store, the network `fetch`, message broadcast)
are modelled explicitly: the cache as an association list of named stores,
the network as an oracle `Request → Except Unit (Option Response)` where
`.error ()` means the fetch promise rejects, `.ok none` means it resolves
with a falsy value, and `.ok (some resp)` means it resolves with a response.
-/

namespace SW

/-- Suffix test on strings, mirroring JavaScript `String.endsWith` as used in
`shouldNotCache` (sw.js line 124). -/
def strEndsWith (s pat : String) : Bool :=
  List.isSuffixOf pat.toList s.toList

/-- Substring containment on character lists, the model of JavaScript
`String.includes` (sw.js line 190). -/
def listContainsSub (pat : List Char) : List Char → Bool
  | [] => List.isPrefixOf pat []
  | c :: cs => List.isPrefixOf pat (c :: cs) || listContainsSub pat cs

/-- Substring test on strings, mirroring JavaScript `String.includes`. -/
def strContains (s pat : String) : Bool :=
  listContainsSub pat.toList s.toList

/-- sw.js line 1: the current generic cache store name. -/
def CACHE_NAME : String := "one-day-maid-v1"

/-- sw.js line 2: the current static-assets cache store name. -/
def STATIC_CACHE_NAME : String := "one-day-maid-static-v1"

/-- sw.js lines 5-11: the Static File Set cached at install. -/
def STATIC_FILES : List String :=
  ["/", "/index.html", "/styles.css", "/script.js", "/manifest.json"]

/-- sw.js lines 14-18: the No-Cache Path Set. -/
def NO_CACHE_FILES : List String :=
  ["/index.html", "/script.js", "/styles.css"]

/-- sw.js lines 123-125: the request classifier.
`true` means the path gets the ALWAYS_FRESH (network-first) policy,
`false` means CACHE_PREFERRED (cache-first). -/
def shouldNotCache (pathname : String) : Bool :=
  NO_CACHE_FILES.any (fun file => strEndsWith pathname file || pathname == file)

/-- A network response: status code, response type (`"basic"`, `"opaque"`, ...)
and body. -/
structure Response where
  status : Nat
  rtype : String
  body : String
deriving DecidableEq

/-- A request, modelling the In-flight Request Context: method, target origin,
path, and query string. The full URL is their concatenation. -/
structure Request where
  method : String
  origin : String
  path : String
  search : String
deriving DecidableEq

/-- The full URL of a request, as seen by `event.request.url`. -/
def Request.url (r : Request) : String :=
  r.origin ++ r.path ++ r.search

/-- A single named cache store: an association list from requests to
responses. -/
abbrev Store := List (Request × Response)

/-- The whole cache: an association list of named stores. -/
abbrev CacheState := List (String × Store)

instance {ε α : Type} [DecidableEq ε] [DecidableEq α] : DecidableEq (Except ε α) := fun a b =>
  match a, b with
  | .ok x, .ok y =>
      if h : x = y then isTrue (congrArg Except.ok h)
      else isFalse (fun hc => h (Except.ok.inj hc))
  | .error x, .error y =>
      if h : x = y then isTrue (congrArg Except.error h)
      else isFalse (fun hc => h (Except.error.inj hc))
  | .ok _, .error _ => isFalse (fun hc => Except.noConfusion hc)
  | .error _, .ok _ => isFalse (fun hc => Except.noConfusion hc)

/-- `cache.match(request)` on a single store: first entry keyed by the exact
request. -/
def storeMatch : Store → Request → Option Response
  | [], _ => none
  | (k, v) :: rest, r => if k = r then some v else storeMatch rest r

/-- `caches.match(request)`: searches every store in order (sw.js lines 85,
93, 205). -/
def cachesMatch : CacheState → Request → Option Response
  | [], _ => none
  | (_, s) :: rest, r =>
    match storeMatch s r with
    | some v => some v
    | none => cachesMatch rest r

/-- `caches.keys()`: the list of store names. -/
def cacheNames (cs : CacheState) : List String :=
  cs.map Prod.fst

/-- The store registered under a name (empty when absent). -/
def getStore : CacheState → String → Store
  | [], _ => []
  | (n, s) :: rest, name => if n = name then s else getStore rest name

/-- `cache.put(request, response)` within one store: replaces any entry for
the same request. -/
def storePut (s : Store) (r : Request) (v : Response) : Store :=
  s.filter (fun p => !(decide (p.1 = r))) ++ [(r, v)]

/-- `caches.open(name)` followed by `cache.put(request, response)`: creates
the store when absent (sw.js lines 111-114). -/
def cachePut (cs : CacheState) (name : String) (r : Request) (v : Response) : CacheState :=
  if (cacheNames cs).contains name then
    cs.map (fun p => if p.1 = name then (p.1, storePut p.2 r v) else p)
  else
    cs ++ [(name, storePut [] r v)]

/-- Registers a whole store under a name, creating it when absent. -/
def setStore (cs : CacheState) (name : String) (s : Store) : CacheState :=
  if (cacheNames cs).contains name then
    cs.map (fun p => if p.1 = name then (p.1, s) else p)
  else
    cs ++ [(name, s)]

/-- The host network-fetch capability. `.error ()`: the fetch promise
rejects; `.ok none`: it resolves with a falsy value; `.ok (some resp)`: it
resolves with `resp`. -/
abbrev NetOracle := Request → Except Unit (Option Response)

/-- Outcome of the main router listener (sw.js lines 61-120): the response it
answered with (`none` when it returned without `respondWith`), the resulting
cache, and how many network fetches it issued. -/
structure RouterOut where
  response : Option (Except Unit (Option Response))
  cache : CacheState
  fetchCalls : Nat
deriving DecidableEq

/-- The main `fetch` listener (sw.js lines 61-120): pass through non-GET and
cross-origin requests; network-first for `shouldNotCache` paths; cache-first
with store-on-miss for everything else. -/
def routerListener (selfOrigin : String) (net : NetOracle) (cs : CacheState) (r : Request) :
    RouterOut :=
  if r.method != "GET" then ⟨none, cs, 0⟩
  else if r.origin != selfOrigin then ⟨none, cs, 0⟩
  else if shouldNotCache r.path then
    match net r with
    | .ok resp => ⟨some (.ok resp), cs, 1⟩
    | .error _ => ⟨some (.ok (cachesMatch cs r)), cs, 1⟩
  else
    match cachesMatch cs r with
    | some v => ⟨some (.ok (some v)), cs, 0⟩
    | none =>
      match net r with
      | .error e => ⟨some (.error e), cs, 1⟩
      | .ok none => ⟨some (.ok none), cs, 1⟩
      | .ok (some fr) =>
        if fr.status != 200 || fr.rtype != "basic" then ⟨some (.ok (some fr)), cs, 1⟩
        else ⟨some (.ok (some fr)), cachePut cs CACHE_NAME r fr, 1⟩

/-- The trigger condition of the update-notification listener (sw.js line
190): the URL contains `"index.html"` as a substring, or equals the origin
followed by `"/"`. -/
def updateCheckMatches (selfOrigin : String) (u : String) : Bool :=
  strContains u "index.html" || u == selfOrigin ++ "/"

/-- Outcome of the update-notification listener (sw.js lines 188-209). -/
structure NotifierOut where
  response : Option (Except Unit (Option Response))
  fetchCalls : Nat
  broadcast : Bool
  invoked : Bool
deriving DecidableEq

/-- The secondary `fetch` listener (sw.js lines 188-209): on a matching URL
it fetches the request itself; on success it broadcasts `UPDATE_AVAILABLE`
to all clients and answers with the response; on failure it answers with
`caches.match`. -/
def updateListener (selfOrigin : String) (net : NetOracle) (cs : CacheState) (r : Request) :
    NotifierOut :=
  if updateCheckMatches selfOrigin (Request.url r) then
    match net r with
    | .ok resp => ⟨some (.ok resp), 1, true, true⟩
    | .error _ => ⟨some (.ok (cachesMatch cs r)), 1, false, true⟩
  else ⟨none, 0, false, false⟩

/-- Combined outcome of handling one `fetch` event through both listeners. -/
structure HandleResult where
  response : Option (Except Unit (Option Response))
  cache : CacheState
  netCalls : Nat
  broadcast : Bool
  updateCheckInvoked : Bool
deriving DecidableEq

/-- Handling of one `fetch` event: both registered listeners run in
registration order; the first `respondWith` wins, but the second listener's
side effects (its own fetch, the broadcast) still occur. Only the router
writes to the cache. -/
def handleFetch (selfOrigin : String) (net : NetOracle) (cs : CacheState) (r : Request) :
    HandleResult :=
  let a := routerListener selfOrigin net cs r
  let b := updateListener selfOrigin net cs r
  { response :=
      match a.response with
      | some x => some x
      | none => b.response
  , cache := a.cache
  , netCalls := a.fetchCalls + b.fetchCalls
  , broadcast := b.broadcast
  , updateCheckInvoked := b.invoked }

/-- The GET request the install phase issues for a static file path. -/
def requestFor (selfOrigin : String) (p : String) : Request :=
  ⟨"GET", selfOrigin, p, ""⟩

/-- The puts performed by `cache.addAll` once every fetch has succeeded. -/
def addAllStore (selfOrigin : String) (fetchFile : String → Option Response) :
    List String → Store → Store
  | [], s => s
  | p :: ps, s =>
    match fetchFile p with
    | some v => addAllStore selfOrigin fetchFile ps (storePut s (requestFor selfOrigin p) v)
    | none => addAllStore selfOrigin fetchFile ps s

/-- `caches.open(name)` alone: creates an empty store when the name is
absent and leaves everything else unchanged. -/
def ensureStore (cs : CacheState) (name : String) : CacheState :=
  if (cacheNames cs).contains name then cs else cs ++ [(name, [])]

/-- The part of the install promise chain after `caches.open` and before the
final `.catch` (sw.js lines 25-32), run on the state in which the static
store already exists: `addAll` the Static File Set (all-or-nothing, per the
host cache contract), then `skipWaiting`. The `Bool` records that
`skipWaiting` was called. -/
def installChain (selfOrigin : String) (fetchFile : String → Option Response)
    (cs : CacheState) : Except Unit (CacheState × Bool) :=
  if STATIC_FILES.all (fun f => (fetchFile f).isSome) then
    .ok (setStore cs STATIC_CACHE_NAME
          (addAllStore selfOrigin fetchFile STATIC_FILES (getStore cs STATIC_CACHE_NAME)),
         true)
  else
    .error ()

/-- Outcome of the install handler as observed through `event.waitUntil`. -/
structure InstallResult where
  cache : CacheState
  skipWaitingCalled : Bool
  errorLogged : Bool
  promiseRejected : Bool
deriving DecidableEq

/-- The `install` event handler (sw.js lines 21-37): `caches.open` creates
the static store first (sw.js line 24), so that creation persists even when
`addAll` later rejects; then the chain above runs, with a final `.catch`
that logs the error and resolves, so the promise handed to
`event.waitUntil` never rejects. -/
def installHandler (selfOrigin : String) (fetchFile : String → Option Response)
    (cs : CacheState) : InstallResult :=
  let cs1 := ensureStore cs STATIC_CACHE_NAME
  match installChain selfOrigin fetchFile cs1 with
  | .ok (cs2, sw) => ⟨cs2, sw, false, false⟩
  | .error _ => ⟨cs1, false, true, false⟩

/-- Outcome of the activate handler: which deletions were attempted, the
resulting cache (a store survives when its deletion failed), whether
`clients.claim()` ran, and whether the `waitUntil` promise rejected. -/
structure ActivateResult where
  deletionsAttempted : List String
  cache : CacheState
  claimCalled : Bool
  promiseRejected : Bool
deriving DecidableEq

/-- The store names the activate handler tries to delete (sw.js line 47):
every name different from both current identities. -/
def staleNames (cs : CacheState) : List String :=
  (cacheNames cs).filter (fun n => n != CACHE_NAME && n != STATIC_CACHE_NAME)

/-- The `activate` event handler (sw.js lines 40-58): all stale-store
deletions are started in parallel (so each is attempted regardless of the
others), their results are gathered with `Promise.all`, and only when every
deletion succeeded does the `.then` run `clients.claim()`; one rejected
deletion rejects the whole chain. `deleteOk n` says whether deleting store
`n` succeeds. -/
def activateHandler (deleteOk : String → Bool) (cs : CacheState) : ActivateResult :=
  let stale := staleNames cs
  { deletionsAttempted := stale
  , cache := cs.filter (fun p => !(p.1 != CACHE_NAME && p.1 != STATIC_CACHE_NAME) || !(deleteOk p.1))
  , claimCalled := stale.all deleteOk
  , promiseRejected := !(stale.all deleteOk) }

/-- The deployment origin used in concrete evaluations. -/
def appOrigin : String := "https://app.example"

/-- A plain successful same-origin response. -/
def resp200 : Response := ⟨200, "basic", "ok"⟩

/-- A network oracle whose every fetch resolves with `resp200`. -/
def netAlways200 : NetOracle := fun _ => .ok (some resp200)

/-- A GET request for the application root `origin + "/"`. -/
def rootReq : Request := ⟨"GET", appOrigin, "/", ""⟩

/-- A response held in the cache for the root request. -/
def cachedRoot : Response := ⟨200, "basic", "cached-root"⟩

/-- A cache whose generic store holds an entry for the root request. -/
def csRoot : CacheState := [(CACHE_NAME, [(rootReq, cachedRoot)])]

/-- A cross-origin POST request whose URL merely contains `"index.html"`. -/
def evilReq : Request := ⟨"POST", "https://evil.com", "/index.html", ""⟩

/-- A static-file fetcher that fails on `"/manifest.json"` only. -/
def failManifest : String → Option Response :=
  fun f => if f = "/manifest.json" then none else some resp200

/-- A deletion oracle that fails on the store named `"old-a"` only. -/
def delFailOldA : String → Bool := fun n => !(n == "old-a")

/-- A cache with the current generic store and two stale stores. -/
def cs3 : CacheState := [(CACHE_NAME, []), ("old-a", []), ("old-b", [])]

/-- The activation scenario of the specification: both current stores plus
one stale store. -/
def scenarioCS : CacheState :=
  [("one-day-maid-v1", []), ("one-day-maid-static-v1", []), ("old-cache-v0", [])]

/-- A GET request for an icon, a CACHE_PREFERRED path. -/
def iconReq : Request := ⟨"GET", appOrigin, "/icon-192.png", ""⟩

/-- A response held in the cache for the icon request. -/
def cachedIcon : Response := ⟨200, "basic", "icon"⟩

/-- A cache whose generic store holds an entry for the icon request. -/
def csIcon : CacheState := [(CACHE_NAME, [(iconReq, cachedIcon)])]

/-- A GET request for `/index.html`, an ALWAYS_FRESH path. -/
def idxReq : Request := ⟨"GET", appOrigin, "/index.html", ""⟩

/-- An opaque (not directly cacheable) response. -/
def respOpaque : Response := ⟨200, "opaque", "cross"⟩

/-- A network oracle whose every fetch resolves with `respOpaque`. -/
def netOpaque : NetOracle := fun _ => .ok (some respOpaque)

/-- Every string is a suffix of itself, so an exact match is also a suffix
match. -/
theorem strEndsWith_self (s : String) : strEndsWith s s = true := by
  simp [strEndsWith, List.isSuffixOf]

/-- The router on a same-origin GET to a CACHE_PREFERRED path with a cache
hit: it answers with the cached response, leaves the cache alone, and calls
fetch zero times. -/
theorem routerListener_cacheHit (o : String) (net : NetOracle) (cs : CacheState) (r : Request)
    (v : Response) (hm : r.method = "GET") (ho : r.origin = o)
    (hc : shouldNotCache r.path = false) (hhit : cachesMatch cs r = some v) :
    routerListener o net cs r = ⟨some (.ok (some v)), cs, 0⟩ := by
  unfold routerListener
  rw [hm, ho, hc, hhit]
  simp

/-- The router on a same-origin GET to an ALWAYS_FRESH path when the fetch
promise resolves: it answers with the fresh value and leaves the cache
alone. -/
theorem routerListener_fresh (o : String) (net : NetOracle) (cs : CacheState) (r : Request)
    (resp : Option Response) (hm : r.method = "GET") (ho : r.origin = o)
    (hc : shouldNotCache r.path = true) (hnet : net r = .ok resp) :
    routerListener o net cs r = ⟨some (.ok resp), cs, 1⟩ := by
  unfold routerListener
  rw [hm, ho, hc, hnet]
  simp

/-- The router on a cache miss with a 200 `"basic"` network response: it
stores a copy in the generic store and answers with the response. -/
theorem routerListener_miss_store (o : String) (net : NetOracle) (cs : CacheState) (r : Request)
    (fr : Response) (hm : r.method = "GET") (ho : r.origin = o)
    (hc : shouldNotCache r.path = false) (hmiss : cachesMatch cs r = none)
    (hnet : net r = .ok (some fr)) (hst : fr.status = 200) (hty : fr.rtype = "basic") :
    routerListener o net cs r = ⟨some (.ok (some fr)), cachePut cs CACHE_NAME r fr, 1⟩ := by
  unfold routerListener
  rw [hm, ho, hc, hmiss, hnet]
  have hb : (fr.status != 200 || fr.rtype != "basic") = false := by
    rw [hst, hty]
    rfl
  simp [hb]

/-- The router on a cache miss with an absent, non-200 or non-basic network
response: it answers with that response and leaves the cache alone. -/
theorem routerListener_miss_nostore (o : String) (net : NetOracle) (cs : CacheState) (r : Request)
    (fr : Option Response) (hm : r.method = "GET") (ho : r.origin = o)
    (hc : shouldNotCache r.path = false) (hmiss : cachesMatch cs r = none)
    (hnet : net r = .ok fr)
    (hbad : fr = none ∨ ∃ x, fr = some x ∧ (x.status ≠ 200 ∨ x.rtype ≠ "basic")) :
    routerListener o net cs r = ⟨some (.ok fr), cs, 1⟩ := by
  unfold routerListener
  rw [hm, ho, hc, hmiss, hnet]
  rcases hbad with rfl | ⟨x, rfl, hx | hx⟩
  · simp
  · have hb : (x.status != 200) = true := bne_iff_ne.mpr hx
    simp [hb]
  · have hb : (x.rtype != "basic") = true := bne_iff_ne.mpr hx
    simp [hb]

/-- The update-notification listener runs its branch exactly when its URL
test matches. -/
theorem updateListener_invoked (o : String) (net : NetOracle) (cs : CacheState) (r : Request) :
    (updateListener o net cs r).invoked = updateCheckMatches o (Request.url r) := by
  unfold updateListener
  split
  case isTrue h =>
    rw [h]
    split <;> rfl
  case isFalse h =>
    rw [Bool.not_eq_true] at h
    rw [h]

/-- The update-notification listener does nothing on a URL its test does not
match. -/
theorem updateListener_not_triggered (o : String) (net : NetOracle) (cs : CacheState) (r : Request)
    (h : updateCheckMatches o (Request.url r) = false) :
    updateListener o net cs r = ⟨none, 0, false, false⟩ := by
  unfold updateListener
  rw [h]
  rfl

/-- An entry appended to a store whose other keys all differ from `r` is
what `storeMatch` finds for `r`. -/
theorem storeMatch_append_last (s : Store) (r : Request) (v : Response)
    (h : ∀ p ∈ s, ¬(p.1 = r)) : storeMatch (s ++ [(r, v)]) r = some v := by
  induction s with
  | nil => simp [storeMatch]
  | cons hd tl ih =>
    obtain ⟨k, w⟩ := hd
    have hhd : ¬(k = r) := h (k, w) (by simp)
    simp only [List.cons_append, storeMatch]
    rw [if_neg hhd]
    exact ih (fun p hp => h p (by simp [hp]))

/-- `storeMatch` finds the entry that `storePut` just wrote. -/
theorem storeMatch_storePut (s : Store) (r : Request) (v : Response) :
    storeMatch (storePut s r v) r = some v := by
  unfold storePut
  apply storeMatch_append_last
  intro p hp
  rw [List.mem_filter] at hp
  simpa using hp.2

/-- One unfolding step of `getStore` on a cons cell. -/
theorem getStore_cons (n : String) (s : Store) (tl : CacheState) (name : String) :
    getStore ((n, s) :: tl) name = if n = name then s else getStore tl name := rfl

/-- Reading back the store that `cachePut` just wrote into. -/
theorem getStore_cachePut (cs : CacheState) (name : String) (r : Request) (v : Response) :
    getStore (cachePut cs name r v) name = storePut (getStore cs name) r v := by
  induction cs with
  | nil => simp [cachePut, cacheNames, getStore]
  | cons hd tl ih =>
    obtain ⟨n, s⟩ := hd
    by_cases hn : n = name
    · subst hn
      have hmem : n ∈ cacheNames ((n, s) :: tl) := by simp [cacheNames]
      simp [cachePut, hmem, getStore_cons]
    · by_cases htl : name ∈ cacheNames tl
      · have hmemc : name ∈ cacheNames ((n, s) :: tl) := by
          simp only [cacheNames, List.map_cons, List.mem_cons]
          exact Or.inr (by simpa [cacheNames] using htl)
        have hmap : cachePut tl name r v
            = List.map (fun p => if p.1 = name then (p.1, storePut p.2 r v) else p) tl := by
          simp [cachePut, htl]
        calc getStore (cachePut ((n, s) :: tl) name r v) name
            = getStore ((n, s) ::
                List.map (fun p => if p.1 = name then (p.1, storePut p.2 r v) else p) tl)
                name := by
              simp [cachePut, hmemc, hn]
          _ = getStore (List.map (fun p => if p.1 = name then (p.1, storePut p.2 r v) else p) tl)
                name := by
              rw [getStore_cons, if_neg hn]
          _ = getStore (cachePut tl name r v) name := by rw [hmap]
          _ = storePut (getStore tl name) r v := ih
          _ = storePut (getStore ((n, s) :: tl) name) r v := by rw [getStore_cons, if_neg hn]
      · have hmemc : name ∉ cacheNames ((n, s) :: tl) := by
          simp only [cacheNames, List.map_cons, List.mem_cons, not_or]
          exact ⟨fun he => hn he.symm, by simpa [cacheNames] using htl⟩
        have happ : cachePut tl name r v = tl ++ [(name, storePut [] r v)] := by
          simp [cachePut, htl]
        calc getStore (cachePut ((n, s) :: tl) name r v) name
            = getStore ((n, s) :: (tl ++ [(name, storePut [] r v)])) name := by
              simp [cachePut, hmemc]
          _ = getStore (tl ++ [(name, storePut [] r v)]) name := by
              rw [getStore_cons, if_neg hn]
          _ = getStore (cachePut tl name r v) name := by rw [happ]
          _ = storePut (getStore tl name) r v := ih
          _ = storePut (getStore ((n, s) :: tl) name) r v := by rw [getStore_cons, if_neg hn]

/-- C1 counterexample: the claim "classify(P) == ALWAYS_FRESH iff P is a
member of the No-Cache Path Set" is false: the path "/foo/index.html" is
classified ALWAYS_FRESH although it is not a member of the set, because the
classifier uses a suffix match. -/
theorem shouldNotCache_not_membership_cex :
    shouldNotCache "/foo/index.html" = true ∧ "/foo/index.html" ∉ NO_CACHE_FILES := by
  decide

/-- C1 (amended): the classifier maps a path to ALWAYS_FRESH exactly when
the path ends with an entry of the No-Cache Path Set (suffix-or-exact
match; an exact match is a special case of a suffix match), and to
CACHE_PREFERRED otherwise. -/
theorem shouldNotCache_suffix_iff (p : String) :
    shouldNotCache p = true ↔
      (strEndsWith p "/index.html" = true ∨ strEndsWith p "/script.js" = true ∨
        strEndsWith p "/styles.css" = true) := by
  simp only [shouldNotCache, NO_CACHE_FILES, List.any_cons, List.any_nil, Bool.or_false,
    Bool.or_eq_true, beq_iff_eq]
  constructor
  · intro h
    rcases h with (h | h) | (h | h) | (h | h)
    · exact Or.inl h
    · subst h
      exact Or.inl (strEndsWith_self _)
    · exact Or.inr (Or.inl h)
    · subst h
      exact Or.inr (Or.inl (strEndsWith_self _))
    · exact Or.inr (Or.inr h)
    · subst h
      exact Or.inr (Or.inr (strEndsWith_self _))
  · intro h
    rcases h with h | h | h
    · exact Or.inl (Or.inl h)
    · exact Or.inr (Or.inl (Or.inl h))
    · exact Or.inr (Or.inr (Or.inl h))

/-- C2 counterexample: with a fetcher failing on "/manifest.json" (a single
entry of the Static File Set), the promise handed to event.waitUntil still
resolves — the install attempt is not abandoned, because the final catch of
the install chain swallows the failure. -/
theorem install_failure_swallowed_cex :
    failManifest "/manifest.json" = none ∧ "/manifest.json" ∈ STATIC_FILES ∧
    (installHandler appOrigin failManifest []).promiseRejected = false := by
  decide

/-- Appending a fresh empty store under a name does not change what
`getStore` returns for that name: either the name occurs earlier, or the
default is the empty store anyway. -/
theorem getStore_append_nil (cs : CacheState) (name : String) :
    getStore (cs ++ [(name, [])]) name = getStore cs name := by
  induction cs with
  | nil => simp [getStore_cons, getStore]
  | cons hd tl ih =>
    obtain ⟨n, s⟩ := hd
    by_cases hn : n = name
    · subst hn
      simp [getStore_cons]
    · simp only [List.cons_append]
      rw [getStore_cons, getStore_cons, if_neg hn, if_neg hn]
      exact ih

/-- `caches.open` never changes the contents registered under the opened
name. -/
theorem getStore_ensureStore (cs : CacheState) (name : String) :
    getStore (ensureStore cs name) name = getStore cs name := by
  unfold ensureStore
  split
  · rfl
  · exact getStore_append_nil cs name

/-- C2 (amended): if caching any single entry of the Static File Set fails,
skipWaiting is not signalled and the failure is logged; the only cache
effect is that caches.open has already created the (empty) static store
when it was absent — no entry is added to any store; but the install
completion promise resolves (the catch swallows the error), so the install
attempt is not abandoned at the event level. -/
theorem install_failure_no_skipWaiting (o : String) (fetchFile : String → Option Response)
    (cs : CacheState) (f : String) (hf : f ∈ STATIC_FILES) (hnone : fetchFile f = none) :
    (installHandler o fetchFile cs).skipWaitingCalled = false ∧
    (installHandler o fetchFile cs).errorLogged = true ∧
    (installHandler o fetchFile cs).promiseRejected = false ∧
    (installHandler o fetchFile cs).cache = ensureStore cs STATIC_CACHE_NAME ∧
    getStore (installHandler o fetchFile cs).cache STATIC_CACHE_NAME
      = getStore cs STATIC_CACHE_NAME := by
  have hall : (STATIC_FILES.all fun x => (fetchFile x).isSome) = false := by
    rw [List.all_eq_false]
    exact ⟨f, hf, by simp [hnone]⟩
  refine ⟨?_, ?_, ?_, ?_, ?_⟩ <;>
    simp [installHandler, installChain, hall, getStore_ensureStore]

/-- C2 witness: the amended install-failure theorem applied to the concrete
fetcher that fails on "/manifest.json", starting from the empty cache: the
empty static store is created and nothing else. -/
theorem install_failure_no_skipWaiting_witness :
    (installHandler appOrigin failManifest []).skipWaitingCalled = false ∧
    (installHandler appOrigin failManifest []).errorLogged = true ∧
    (installHandler appOrigin failManifest []).promiseRejected = false ∧
    (installHandler appOrigin failManifest []).cache = ensureStore [] STATIC_CACHE_NAME ∧
    getStore (installHandler appOrigin failManifest []).cache STATIC_CACHE_NAME
      = getStore ([] : CacheState) STATIC_CACHE_NAME :=
  install_failure_no_skipWaiting appOrigin failManifest [] "/manifest.json" (by decide)
    (by decide)

/-- C3 counterexample: with stores {current, "old-a", "old-b"} and deletion
failing only on "old-a", the other stale store "old-b" is still deleted, but
clients.claim is NOT signalled — Promise.all rejects and skips the final
then, refuting "the activation still completes by signalling takeover even
when some deletion fails". -/
theorem activate_claim_blocked_cex :
    delFailOldA "old-a" = false ∧ "old-a" ∈ staleNames cs3 ∧
    "old-b" ∈ staleNames cs3 ∧
    "old-b" ∉ cacheNames (activateHandler delFailOldA cs3).cache ∧
    (activateHandler delFailOldA cs3).claimCalled = false := by
  decide

/-- C3 (amended): every stale-store deletion is attempted regardless of the
others, and a failure deleting one store does not prevent the deletion of
the other stale stores; but clients.claim is signalled only when every
stale-store deletion succeeds. -/
theorem activate_prune_fanout (dOk : String → Bool) (cs : CacheState) :
    (activateHandler dOk cs).deletionsAttempted = staleNames cs ∧
    ((activateHandler dOk cs).claimCalled = true ↔ ∀ n ∈ staleNames cs, dOk n = true) ∧
    (∀ n ∈ staleNames cs, dOk n = true → n ∉ cacheNames (activateHandler dOk cs).cache) := by
  refine ⟨rfl, ?_, ?_⟩
  · simp [activateHandler, List.all_eq_true]
  · intro n hn hok hmem
    rw [staleNames, List.mem_filter] at hn
    simp only [activateHandler, cacheNames, List.mem_map, List.mem_filter] at hmem
    obtain ⟨p, ⟨hpcs, hkeep⟩, hfst⟩ := hmem
    rw [hfst, hn.2, hok] at hkeep
    simp at hkeep

/-- C3 witness: the amended activation theorem applied to the concrete cache
whose "old-a" deletion fails: "old-b" is still removed. -/
theorem activate_prune_fanout_witness :
    "old-b" ∉ cacheNames (activateHandler delFailOldA cs3).cache :=
  (activate_prune_fanout delFailOldA cs3).2.2 "old-b" (by decide) (by decide)

/-- C4 counterexample: the update-notifier interception fires for a
cross-origin POST request whose URL merely contains "index.html" as a
substring, refuting "fires exactly for the application's root document and
for no other request". -/
theorem update_notifier_scope_cex :
    evilReq.method ≠ "GET" ∧ evilReq.origin ≠ appOrigin ∧
    Request.url evilReq ≠ appOrigin ++ "/" ∧
    (handleFetch appOrigin netAlways200 [] evilReq).updateCheckInvoked = true ∧
    (handleFetch appOrigin netAlways200 [] evilReq).broadcast = true := by
  decide

/-- C4 (amended): the update-notifier interception fires exactly for the
requests whose full URL contains "index.html" as a substring or equals the
origin followed by "/", regardless of method and origin. -/
theorem update_notifier_trigger_iff (o : String) (net : NetOracle) (cs : CacheState)
    (r : Request) :
    (handleFetch o net cs r).updateCheckInvoked = true ↔
      (strContains (Request.url r) "index.html" = true ∨ Request.url r = o ++ "/") := by
  have h1 : (handleFetch o net cs r).updateCheckInvoked = (updateListener o net cs r).invoked :=
    rfl
  rw [h1, updateListener_invoked]
  simp [updateCheckMatches]

/-- C5 counterexample: the same-origin GET request for the root "/" is
CACHE_PREFERRED and has a cache entry; the router answers with the cached
response, yet one network fetch is still issued while handling the request —
by the separate update-notifier listener — refuting "the network fetch
capability is not invoked at all". -/
theorem cache_hit_fetch_still_invoked_cex :
    rootReq.method = "GET" ∧ rootReq.origin = appOrigin ∧
    shouldNotCache rootReq.path = false ∧
    cachesMatch csRoot rootReq = some cachedRoot ∧
    (handleFetch appOrigin netAlways200 csRoot rootReq).response
      = some (.ok (some cachedRoot)) ∧
    (handleFetch appOrigin netAlways200 csRoot rootReq).netCalls = 1 := by
  refine ⟨rfl, rfl, by decide, rfl, rfl, rfl⟩

/-- C5 (amended): for a same-origin GET request classified CACHE_PREFERRED
with an existing cache entry, the cached response is returned and the cache
is unchanged; and the network fetch capability is not invoked at all
provided the request does not also trigger the update-notifier listener
(URL containing "index.html" or equal to origin + "/"). -/
theorem cache_hit_router_no_fetch (o : String) (net : NetOracle) (cs : CacheState) (r : Request)
    (v : Response) (hm : r.method = "GET") (ho : r.origin = o)
    (hc : shouldNotCache r.path = false) (hhit : cachesMatch cs r = some v)
    (hnotif : updateCheckMatches o (Request.url r) = false) :
    (handleFetch o net cs r).response = some (.ok (some v)) ∧
    (handleFetch o net cs r).netCalls = 0 ∧
    (handleFetch o net cs r).cache = cs := by
  have ha := routerListener_cacheHit o net cs r v hm ho hc hhit
  have hb := updateListener_not_triggered o net cs r hnotif
  simp [handleFetch, ha, hb]

/-- C5 witness: the amended cache-hit theorem applied to the concrete icon
request, whose URL does not trigger the update notifier. -/
theorem cache_hit_router_no_fetch_witness :
    (handleFetch appOrigin netAlways200 csIcon iconReq).response
      = some (.ok (some cachedIcon)) ∧
    (handleFetch appOrigin netAlways200 csIcon iconReq).netCalls = 0 ∧
    (handleFetch appOrigin netAlways200 csIcon iconReq).cache = csIcon :=
  cache_hit_router_no_fetch appOrigin netAlways200 csIcon iconReq cachedIcon rfl rfl
    (by decide) (by decide) (by decide)

/-- C6: for a same-origin GET request classified CACHE_PREFERRED with no
cache entry, when the network returns a status-200 response of type "basic",
a copy is stored in the generic current store "one-day-maid-v1" keyed by the
exact request, and the original response is returned to the caller. -/
theorem cache_miss_200_basic_stored (o : String) (net : NetOracle) (cs : CacheState)
    (r : Request) (fr : Response) (hm : r.method = "GET") (ho : r.origin = o)
    (hc : shouldNotCache r.path = false) (hmiss : cachesMatch cs r = none)
    (hnet : net r = .ok (some fr)) (hst : fr.status = 200) (hty : fr.rtype = "basic") :
    (handleFetch o net cs r).response = some (.ok (some fr)) ∧
    storeMatch (getStore (handleFetch o net cs r).cache CACHE_NAME) r = some fr := by
  have ha := routerListener_miss_store o net cs r fr hm ho hc hmiss hnet hst hty
  constructor
  · simp [handleFetch, ha]
  · have hcache : (handleFetch o net cs r).cache = cachePut cs CACHE_NAME r fr := by
      simp [handleFetch, ha]
    rw [hcache, getStore_cachePut, storeMatch_storePut]

/-- C6 witness: the store-on-miss theorem applied to the concrete icon
request on an empty cache with a successful 200 basic response. -/
theorem cache_miss_200_basic_stored_witness :
    (handleFetch appOrigin netAlways200 [] iconReq).response = some (.ok (some resp200)) ∧
    storeMatch (getStore (handleFetch appOrigin netAlways200 [] iconReq).cache CACHE_NAME)
      iconReq = some resp200 :=
  cache_miss_200_basic_stored appOrigin netAlways200 [] iconReq resp200 rfl rfl (by decide)
    rfl rfl (by decide) (by decide)

/-- C7: for a same-origin GET request classified ALWAYS_FRESH, when the
network fetch succeeds the fresh response is returned verbatim and no cache
store is modified: the whole cache state is identical before and after
handling the request. -/
theorem always_fresh_not_stored (o : String) (net : NetOracle) (cs : CacheState) (r : Request)
    (fr : Response) (hm : r.method = "GET") (ho : r.origin = o)
    (hc : shouldNotCache r.path = true) (hnet : net r = .ok (some fr)) :
    (handleFetch o net cs r).response = some (.ok (some fr)) ∧
    (handleFetch o net cs r).cache = cs := by
  have ha := routerListener_fresh o net cs r (some fr) hm ho hc hnet
  simp [handleFetch, ha]

/-- C7 witness: the always-fresh theorem applied to the concrete
"/index.html" request over the cache that holds a root entry. -/
theorem always_fresh_not_stored_witness :
    (handleFetch appOrigin netAlways200 csRoot idxReq).response = some (.ok (some resp200)) ∧
    (handleFetch appOrigin netAlways200 csRoot idxReq).cache = csRoot :=
  always_fresh_not_stored appOrigin netAlways200 csRoot idxReq resp200 rfl rfl (by decide) rfl

/-- C8: the activation phase attempts to delete exactly the stores whose
names differ from both current identities — a present name is targeted iff
it is neither "one-day-maid-v1" nor "one-day-maid-static-v1" — and in the
specification's scenario with stores {"one-day-maid-v1",
"one-day-maid-static-v1", "old-cache-v0"} only "old-cache-v0" is deleted. -/
theorem activate_deletes_exactly_stale (dOk : String → Bool) (cs : CacheState) (n : String) :
    (n ∈ (activateHandler dOk cs).deletionsAttempted ↔
      n ∈ cacheNames cs ∧ n ≠ CACHE_NAME ∧ n ≠ STATIC_CACHE_NAME) ∧
    (activateHandler (fun _ => true) scenarioCS).deletionsAttempted = ["old-cache-v0"] ∧
    cacheNames (activateHandler (fun _ => true) scenarioCS).cache
      = [CACHE_NAME, STATIC_CACHE_NAME] := by
  refine ⟨?_, by decide, by decide⟩
  simp [activateHandler, staleNames, List.mem_filter, bne_iff_ne, and_assoc]

/-- C9: activation pruning is idempotent — running the activation phase
twice in a row with no intervening install yields the same final set of
store names as running it once, for every initial cache and every deletion
oracle. -/
theorem activate_idempotent (dOk : String → Bool) (cs : CacheState) :
    cacheNames (activateHandler dOk ((activateHandler dOk cs).cache)).cache
      = cacheNames (activateHandler dOk cs).cache := by
  simp [activateHandler, List.filter_filter]

/-- C10: in the CACHE_PREFERRED miss path, a network response that is
absent, has a status other than 200, or is not of type "basic" is returned
to the caller unchanged and no cache store is modified. -/
theorem cache_miss_invalid_not_stored (o : String) (net : NetOracle) (cs : CacheState)
    (r : Request) (fr : Option Response) (hm : r.method = "GET") (ho : r.origin = o)
    (hc : shouldNotCache r.path = false) (hmiss : cachesMatch cs r = none)
    (hnet : net r = .ok fr)
    (hbad : fr = none ∨ ∃ x, fr = some x ∧ (x.status ≠ 200 ∨ x.rtype ≠ "basic")) :
    (handleFetch o net cs r).response = some (.ok fr) ∧
    (handleFetch o net cs r).cache = cs := by
  have ha := routerListener_miss_nostore o net cs r fr hm ho hc hmiss hnet hbad
  simp [handleFetch, ha]

/-- C10 witness: the no-store theorem applied to the concrete icon request
on an empty cache with an opaque (non-basic) response. -/
theorem cache_miss_invalid_not_stored_witness :
    (handleFetch appOrigin netOpaque [] iconReq).response = some (.ok (some respOpaque)) ∧
    (handleFetch appOrigin netOpaque [] iconReq).cache = [] :=
  cache_miss_invalid_not_stored appOrigin netOpaque [] iconReq (some respOpaque) rfl rfl
    (by decide) rfl rfl (Or.inr ⟨respOpaque, rfl, Or.inr (by decide)⟩)

end SW
